import Mathlib

/-!
Verification of the bookstore notebook-publishing extension
(`src/bookstore/handlers.py`).

The embedding models the JSON values the handlers manipulate (as decoded by
Python's `json` module), the relevant Python failure modes (`HTTPError`,
`KeyError`, `TypeError`), serialization via `json.dumps`, and the three
entry points: `BookstoreVersionHandler.get`, `BookstorePublishHandler.put`
(with its helper `_publish`), and `load_jupyter_server_extension`.
The object-storage client (`aiobotocore`) is external; its single
`put_object` operation is passed in as an oracle, and the calls the handler
issues to it are returned as an explicit trace.
-/

set_option autoImplicit false

/-- A JSON value as decoded by Python's `json.loads`: `None`, `bool`, number,
`str`, `list`, or `dict` (string keys, insertion-ordered, no duplicates). -/
inductive Json where
  | null : Json
  | bool : Bool → Json
  | num : Int → Json
  | str : String → Json
  | arr : List Json → Json
  | obj : List (String × Json) → Json
deriving Repr

/-- Python truthiness of a decoded JSON value: `None`, `False`, `0`, `""`,
`[]` and `{}` are falsy, everything else is truthy. -/
def Json.truthy : Json → Bool
  | .null => false
  | .bool b => b
  | .num n => n != 0
  | .str s => !s.isEmpty
  | .arr l => !l.isEmpty
  | .obj l => !l.isEmpty

/-- Python truthiness of `get_json_body`'s result: `None` (absent body) is
falsy, otherwise the decoded value's truthiness. -/
def truthyOpt : Option Json → Bool
  | none => false
  | some j => j.truthy

/-- The Python exceptions the handlers can raise or propagate. -/
inductive PyErr where
  /-- `tornado.web.HTTPError(status, msg)` -/
  | httpError (status : Nat) (msg : String)
  /-- `KeyError(key)` from a failed dict subscript -/
  | keyError (key : String)
  /-- `TypeError` from subscripting a non-dict with a string key -/
  | typeError : PyErr
  /-- an exception raised by the object-storage client during the write -/
  | storageError (msg : String)
deriving DecidableEq, Repr

/-- Python equality of a decoded JSON value with a string literal (as in
`model['type'] != 'notebook'`): only an equal `str` compares equal. -/
def Json.eqStr : Json → String → Bool
  | .str s, t => s == t
  | _, _ => false

/-- Python subscript `value[key]` with a string key: returns the entry of a
dict, raises `KeyError` when the key is missing, and `TypeError` when the
value is not a dict. -/
def Json.getItem : Json → String → Except PyErr Json
  | .obj fields, k =>
    match fields.lookup k with
    | some v => .ok v
    | none => .error (.keyError k)
  | _, _ => .error .typeError

/-- One hexadecimal digit (lower case), as produced by Python's `\uXXXX`
escapes. -/
def hexDigit (n : Nat) : Char :=
  if n < 10 then Char.ofNat (48 + n) else Char.ofNat (87 + n)

/-- Four-digit hexadecimal rendering of `n < 0x10000`. -/
def hex4 (n : Nat) : String :=
  String.mk [hexDigit (n / 4096 % 16), hexDigit (n / 256 % 16),
             hexDigit (n / 16 % 16), hexDigit (n % 16)]

/-- Escaping of one character as in Python's `json.dumps` with the default
`ensure_ascii=True`: `"` and `\` get a backslash, the named control escapes
are used where they exist, all other characters outside printable ASCII
become `\uXXXX` (a surrogate pair beyond the BMP). -/
def escapeChar (c : Char) : String :=
  if c = '"' then "\\\""
  else if c = '\\' then "\\\\"
  else if c = Char.ofNat 8 then "\\b"
  else if c = Char.ofNat 9 then "\\t"
  else if c = Char.ofNat 10 then "\\n"
  else if c = Char.ofNat 12 then "\\f"
  else if c = Char.ofNat 13 then "\\r"
  else if c.toNat < 32 ∨ c.toNat ≥ 127 then
    if c.toNat ≥ 65536 then
      "\\u" ++ hex4 (55296 + (c.toNat - 65536) / 1024)
        ++ "\\u" ++ hex4 (56320 + (c.toNat - 65536) % 1024)
    else "\\u" ++ hex4 c.toNat
  else String.singleton c

/-- A JSON string literal as produced by `json.dumps`. -/
def escapeString (s : String) : String :=
  "\"" ++ String.join (s.data.map escapeChar) ++ "\""

mutual

/-- `json.dumps(v)` with Python's defaults (item separator `", "`, key
separator `": "`, `ensure_ascii=True`). -/
def Json.dumps : Json → String
  | .null => "null"
  | .bool b => if b then "true" else "false"
  | .num n => toString n
  | .str s => escapeString s
  | .arr l => "[" ++ dumpsList l ++ "]"
  | .obj l => "\x7b" ++ dumpsObj l ++ "\x7d"

/-- Comma-separated rendering of a JSON array's elements. -/
def dumpsList : List Json → String
  | [] => ""
  | [x] => Json.dumps x
  | x :: y :: xs => Json.dumps x ++ ", " ++ dumpsList (y :: xs)

/-- Comma-separated rendering of a JSON object's entries. -/
def dumpsObj : List (String × Json) → String
  | [] => ""
  | [(k, v)] => escapeString k ++ ": " ++ Json.dumps v
  | (k, v) :: e :: xs => escapeString k ++ ": " ++ Json.dumps v ++ ", " ++ dumpsObj (e :: xs)

end

/-- Python's `str.lstrip('/')`: remove all leading `'/'` characters. -/
def lstripSlash (s : String) : String :=
  ⟨s.data.dropWhile (fun c => c = '/')⟩

/-- All leading and trailing `'/'` characters removed (Python's
`str.strip('/')`). -/
def stripSlash (s : String) : String :=
  ⟨((s.data.dropWhile (fun c => c = '/')).reverse.dropWhile (fun c => c = '/')).reverse⟩

/-- The bookstore settings the publish handler reads
(`BookstoreSettings(config=self.config)`). -/
structure BookstoreSettings where
  s3_bucket : String
  published_pfx : String
  s3_secret_access_key : String
  s3_access_key_id : String
  s3_endpoint_url : String
  s3_region_name : String
deriving DecidableEq, Repr

/-- Modelled from the spec: `s3_key` from the `s3_paths` module (not under
`src/`) — "concatenates prefix and relativePath with exactly one separator,
with no duplicate or missing separators regardless of whether prefix ends in
a separator or relativePath begins with one". -/
def s3_key (pfx path : String) : String :=
  stripSlash pfx ++ "/" ++ stripSlash path

/-- Modelled from the spec: `s3_path` from the `s3_paths` module (not under
`src/`) — "produces a scheme-qualified identifier (e.g., `s3://bucket/key`)";
it "never diverges" from `s3_key` on the key portion. -/
def s3_path (bucket pfx path : String) : String :=
  "s3://" ++ stripSlash bucket ++ "/" ++ s3_key pfx path

/-- Modelled from the spec: `s3_display_path` from the `s3_paths` module (not
under `src/`) — "a human-readable identifier for logs" agreeing on the key. -/
def s3_display_path (bucket pfx path : String) : String :=
  s3_path bucket pfx path

/-- One `put_object` call issued to the object-storage client, with the
keyword arguments the handler passes (`Bucket`, `Key`, `Body`). -/
structure PutObjectCall where
  bucket : String
  key : String
  body : String
deriving DecidableEq, Repr

/-- The part of the storage client's `put_object` response the handler reads:
whether the response dict carries a `VersionId` entry, and its value. -/
structure PutObjectResponse where
  versionId : Option String
deriving DecidableEq, Repr

/-- An HTTP response as produced by the handler: the status set on the
connection (tornado's default 200 unless `set_status` is called) and the
body passed to `finish`. -/
structure HttpResponse where
  status : Nat
  body : String
deriving DecidableEq, Repr

/-- `BookstorePublishHandler._publish(model, path)`: checks the document
type, extracts the content, computes the storage key and full path, issues
the single `put_object` call, and formats the 201 response with `s3path`
and, when the response reports one, `versionID`.  Returns the outcome
together with the trace of storage calls issued. -/
def BookstorePublishHandler.publishModel (s : BookstoreSettings)
    (store : PutObjectCall → Except PyErr PutObjectResponse)
    (model : Json) (path : String) :
    Except PyErr HttpResponse × List PutObjectCall :=
  match model.getItem "type" with
  | .error e => (.error e, [])
  | .ok t =>
    if !(t.eqStr "notebook") then
      (.error (.httpError 400 "bookstore only publishes notebooks"), [])
    else
      match model.getItem "content" with
      | .error e => (.error e, [])
      | .ok content =>
        let full_s3_path := s3_path s.s3_bucket s.published_pfx path
        let file_key := s3_key s.published_pfx path
        let call : PutObjectCall := ⟨s.s3_bucket, file_key, content.dumps⟩
        match store call with
        | .error e => (.error e, [call])
        | .ok obj =>
          let fields :=
            match obj.versionId with
            | some v => [("s3path", Json.str full_s3_path), ("versionID", Json.str v)]
            | none => [("s3path", Json.str full_s3_path)]
          (.ok ⟨201, (Json.obj fields).dumps⟩, [call])

/-- `BookstorePublishHandler.put(path)`: rejects an empty or root path,
rejects a falsy decoded body (`get_json_body` result), and otherwise
publishes the model at the path with leading slashes stripped. -/
def BookstorePublishHandler.put (s : BookstoreSettings)
    (store : PutObjectCall → Except PyErr PutObjectResponse)
    (path : String) (body : Option Json) :
    Except PyErr HttpResponse × List PutObjectCall :=
  if path = "" ∨ path = "/" then
    (.error (.httpError 400 "Must provide a path for publishing"), [])
  else
    match body with
    | some model =>
      if model.truthy then
        BookstorePublishHandler.publishModel s store model (lstripSlash path)
      else
        (.error (.httpError 400 "Cannot publish an empty model"), [])
    | none => (.error (.httpError 400 "Cannot publish an empty model"), [])

/-- `BookstoreVersionHandler.get`: serializes
`{"bookstore": True, "version": settings['bookstore']["version"],
"validation": settings['bookstore']["validation"]}` and finishes with the
default 200 status.  A missing settings entry propagates as the
corresponding `KeyError`/`TypeError`. -/
def BookstoreVersionHandler.get (webSettings : Json) : Except PyErr HttpResponse := do
  let bs ← webSettings.getItem "bookstore"
  let v ← bs.getItem "version"
  let validation ← bs.getItem "validation"
  pure ⟨200, (Json.obj [("bookstore", Json.bool true), ("version", v),
                        ("validation", validation)]).dumps⟩

/-- A route the extension can register. -/
inductive Route where
  /-- `/api/bookstore`, served by `BookstoreVersionHandler` -/
  | versionRoute : Route
  /-- `/api/bookstore/published/<path>`, served by `BookstorePublishHandler` -/
  | publishRoute : Route
deriving DecidableEq, Repr

/-- `load_jupyter_server_extension`: always registers the version handler;
registers the publish handler only when both `bookstore_valid` and
`publish_valid` in the startup validation report (a dict, read with `.get`,
so a missing key yields falsy `None`) are truthy.  Returns the registered
routes. -/
def load_jupyter_server_extension (validation : List (String × Json)) : List Route :=
  let check_published := [validation.lookup "bookstore_valid",
                          validation.lookup "publish_valid"]
  if check_published.all truthyOpt then
    [Route.versionRoute, Route.publishRoute]
  else
    [Route.versionRoute]

/-- Whether an optional flag read from the validation report is a boolean or
absent (the shape `validate_bookstore` gives the report's flags). -/
def boolOrAbsent : Option Json → Bool
  | none => true
  | some (Json.bool _) => true
  | some _ => false

/-- A concrete settings value used by the concrete instances below. -/
def sampleSettings : BookstoreSettings :=
  ⟨"mybucket", "published", "SECRET", "AKIA", "https://s3.example.com", "us-east-1"⟩

/-- A storage oracle whose `put_object` response reports version id `"v1"`. -/
def storeVersioned : PutObjectCall → Except PyErr PutObjectResponse :=
  fun _ => .ok ⟨some "v1"⟩

/-- A storage oracle whose `put_object` response reports no version id. -/
def storePlain : PutObjectCall → Except PyErr PutObjectResponse :=
  fun _ => .ok ⟨none⟩

/-- A storage oracle that fails every write. -/
def storeFailing : PutObjectCall → Except PyErr PutObjectResponse :=
  fun _ => .error (.storageError "connection refused")

/-- A well-formed notebook publish body. -/
def sampleNotebook : Json :=
  Json.obj [("type", Json.str "notebook"), ("content", Json.obj [("cells", Json.arr [])])]

/-- A concrete startup validation report with both flags true. -/
def sampleReport : Json :=
  Json.obj [("bookstore_valid", Json.bool true), ("publish_valid", Json.bool true)]

/-- The web application settings as `load_jupyter_server_extension` leaves
them: a `bookstore` entry holding the version string and the report. -/
def sampleWebSettings : Json :=
  Json.obj [("bookstore", Json.obj [("version", Json.str "2.5.1"),
                                    ("validation", sampleReport)])]

/-! ## General lemmas about the embedding -/

theorem dropWhile_dropWhile_self (p : Char → Bool) (l : List Char) :
    (l.dropWhile p).dropWhile p = l.dropWhile p := by
  induction l with
  | nil => rfl
  | cons c l ih =>
    by_cases h : p c
    · simpa [List.dropWhile_cons, h] using ih
    · simp [List.dropWhile_cons, h]

theorem lstripSlash_idem (s : String) :
    lstripSlash (lstripSlash s) = lstripSlash s := by
  simp [lstripSlash, dropWhile_dropWhile_self]

theorem stripSlash_lstripSlash (s : String) :
    stripSlash (lstripSlash s) = stripSlash s := by
  simp [stripSlash, lstripSlash, dropWhile_dropWhile_self]

theorem lstripSlash_empty_of_arg_empty (s : String) (h : s = "" ∨ s = "/") :
    lstripSlash s = "" := by
  rcases h with h | h <;> subst h <;> rfl

theorem Json.eqStr_iff (t : Json) (u : String) :
    t.eqStr u = true ↔ t = Json.str u := by
  cases t <;> simp [Json.eqStr]

theorem exceptBind_ok {α β ε : Type} (a : α) (f : α → Except ε β) :
    (Except.ok a >>= f) = f a := rfl

/-! ## Reduction lemmas for the publish handler -/

theorem put_path_error (s : BookstoreSettings)
    (store : PutObjectCall → Except PyErr PutObjectResponse)
    (path : String) (body : Option Json) (h : path = "" ∨ path = "/") :
    BookstorePublishHandler.put s store path body
      = (Except.error (PyErr.httpError 400 "Must provide a path for publishing"), []) := by
  simp [BookstorePublishHandler.put, if_pos h]

theorem put_empty_model (s : BookstoreSettings)
    (store : PutObjectCall → Except PyErr PutObjectResponse)
    (path : String) (body : Option Json)
    (h : ¬(path = "" ∨ path = "/")) (hb : truthyOpt body = false) :
    BookstorePublishHandler.put s store path body
      = (Except.error (PyErr.httpError 400 "Cannot publish an empty model"), []) := by
  cases body with
  | none => simp [BookstorePublishHandler.put, if_neg h]
  | some m =>
    simp only [truthyOpt] at hb
    simp [BookstorePublishHandler.put, if_neg h, hb]

theorem put_truthy_body (s : BookstoreSettings)
    (store : PutObjectCall → Except PyErr PutObjectResponse)
    (path : String) (m : Json)
    (h : ¬(path = "" ∨ path = "/")) (hm : m.truthy = true) :
    BookstorePublishHandler.put s store path (some m)
      = BookstorePublishHandler.publishModel s store m (lstripSlash path) := by
  simp [BookstorePublishHandler.put, if_neg h, hm]

theorem publishModel_type_exn (s : BookstoreSettings)
    (store : PutObjectCall → Except PyErr PutObjectResponse)
    (m : Json) (path : String) (e : PyErr) (h : m.getItem "type" = Except.error e) :
    BookstorePublishHandler.publishModel s store m path = (Except.error e, []) := by
  simp [BookstorePublishHandler.publishModel, h]

theorem publishModel_wrong_type (s : BookstoreSettings)
    (store : PutObjectCall → Except PyErr PutObjectResponse)
    (m : Json) (path : String) (t : Json)
    (h : m.getItem "type" = Except.ok t) (ht : t.eqStr "notebook" = false) :
    BookstorePublishHandler.publishModel s store m path
      = (Except.error (PyErr.httpError 400 "bookstore only publishes notebooks"), []) := by
  simp [BookstorePublishHandler.publishModel, h, ht]

theorem publishModel_content_exn (s : BookstoreSettings)
    (store : PutObjectCall → Except PyErr PutObjectResponse)
    (m : Json) (path : String) (e : PyErr)
    (h : m.getItem "type" = Except.ok (Json.str "notebook"))
    (hc : m.getItem "content" = Except.error e) :
    BookstorePublishHandler.publishModel s store m path = (Except.error e, []) := by
  simp [BookstorePublishHandler.publishModel, h, hc, Json.eqStr]

theorem publishModel_store_error (s : BookstoreSettings)
    (store : PutObjectCall → Except PyErr PutObjectResponse)
    (m : Json) (path : String) (c : Json) (e : PyErr)
    (h : m.getItem "type" = Except.ok (Json.str "notebook"))
    (hc : m.getItem "content" = Except.ok c)
    (hs : store ⟨s.s3_bucket, s3_key s.published_pfx path, c.dumps⟩ = Except.error e) :
    BookstorePublishHandler.publishModel s store m path
      = (Except.error e, [⟨s.s3_bucket, s3_key s.published_pfx path, c.dumps⟩]) := by
  simp [BookstorePublishHandler.publishModel, h, hc, hs, Json.eqStr]

theorem publishModel_store_ok (s : BookstoreSettings)
    (store : PutObjectCall → Except PyErr PutObjectResponse)
    (m : Json) (path : String) (c : Json) (resp : PutObjectResponse)
    (h : m.getItem "type" = Except.ok (Json.str "notebook"))
    (hc : m.getItem "content" = Except.ok c)
    (hs : store ⟨s.s3_bucket, s3_key s.published_pfx path, c.dumps⟩ = Except.ok resp) :
    BookstorePublishHandler.publishModel s store m path
      = (Except.ok ⟨201, (Json.obj (match resp.versionId with
            | some v => [("s3path", Json.str (s3_path s.s3_bucket s.published_pfx path)),
                         ("versionID", Json.str v)]
            | none => [("s3path", Json.str (s3_path s.s3_bucket s.published_pfx path))])).dumps⟩,
         [⟨s.s3_bucket, s3_key s.published_pfx path, c.dumps⟩]) := by
  simp [BookstorePublishHandler.publishModel, h, hc, hs, Json.eqStr]

/-! ## Claim theorems -/

/-- C5: publishing to the empty path `""` or the root path `"/"` fails with
the 400 missing-path error for every request body, issues no storage call,
and the outcome does not depend on the body at all. -/
theorem publish_empty_path_rejected (s : BookstoreSettings)
    (store : PutObjectCall → Except PyErr PutObjectResponse) (body b₁ b₂ : Option Json) :
    BookstorePublishHandler.put s store "" body
      = (Except.error (PyErr.httpError 400 "Must provide a path for publishing"), [])
    ∧ BookstorePublishHandler.put s store "/" body
      = (Except.error (PyErr.httpError 400 "Must provide a path for publishing"), [])
    ∧ BookstorePublishHandler.put s store "" b₁ = BookstorePublishHandler.put s store "" b₂
    ∧ BookstorePublishHandler.put s store "/" b₁ = BookstorePublishHandler.put s store "/" b₂ :=
  ⟨put_path_error s store "" body (Or.inl rfl),
   put_path_error s store "/" body (Or.inr rfl),
   (put_path_error s store "" b₁ (Or.inl rfl)).trans
     (put_path_error s store "" b₂ (Or.inl rfl)).symm,
   (put_path_error s store "/" b₁ (Or.inr rfl)).trans
     (put_path_error s store "/" b₂ (Or.inr rfl)).symm⟩

/-- C4: the validation checks short-circuit in a fixed order — an empty or
root path yields the missing-path error whatever the body (even an empty or
wrongly-typed one), and a falsy body on an acceptable path yields the
empty-model error whatever its type field would have been. -/
theorem publish_validation_order (s : BookstoreSettings)
    (store : PutObjectCall → Except PyErr PutObjectResponse)
    (path : String) (body : Option Json) (hpath : path = "" ∨ path = "/")
    (path' : String) (body' : Option Json)
    (hp' : ¬(path' = "" ∨ path' = "/")) (hb' : truthyOpt body' = false) :
    (BookstorePublishHandler.put s store path body).1
      = Except.error (PyErr.httpError 400 "Must provide a path for publishing")
    ∧ (BookstorePublishHandler.put s store path' body').1
      = Except.error (PyErr.httpError 400 "Cannot publish an empty model") := by
  rw [put_path_error s store path body hpath, put_empty_model s store path' body' hp' hb']
  exact ⟨rfl, rfl⟩

/-- C4 witness: an empty path together with an empty body fails with the
missing-path error, and an empty-object body (whose type field is also
absent/wrong) on a good path fails with the empty-model error. -/
theorem publish_validation_order_witness :
    (("" : String) = "" ∨ ("" : String) = "/")
    ∧ ¬(("nb.ipynb" : String) = "" ∨ ("nb.ipynb" : String) = "/")
    ∧ truthyOpt (some (Json.obj [])) = false
    ∧ (BookstorePublishHandler.put sampleSettings storePlain "" none).1
      = Except.error (PyErr.httpError 400 "Must provide a path for publishing")
    ∧ (BookstorePublishHandler.put sampleSettings storePlain "nb.ipynb" (some (Json.obj []))).1
      = Except.error (PyErr.httpError 400 "Cannot publish an empty model") :=
  ⟨Or.inl rfl, by decide, rfl,
   (publish_validation_order sampleSettings storePlain "" none (Or.inl rfl)
      "nb.ipynb" (some (Json.obj [])) (by decide) rfl).1,
   (publish_validation_order sampleSettings storePlain "" none (Or.inl rfl)
      "nb.ipynb" (some (Json.obj [])) (by decide) rfl).2⟩

/-- C6 counterexample: `"/"` is a non-empty path, yet publishing an absent
body to it fails with the missing-path message, not the empty-model one the
claim requires for every non-empty path. -/
theorem publish_empty_model_root_cex :
    ("/" : String) ≠ ""
    ∧ (BookstorePublishHandler.put sampleSettings storePlain "/" none).1
      = Except.error (PyErr.httpError 400 "Must provide a path for publishing")
    ∧ (BookstorePublishHandler.put sampleSettings storePlain "/" none).1
      ≠ Except.error (PyErr.httpError 400 "Cannot publish an empty model") := by
  refine ⟨by decide, rfl, ?_⟩
  have h0 : (BookstorePublishHandler.put sampleSettings storePlain "/" none).1
      = Except.error (PyErr.httpError 400 "Must provide a path for publishing") := rfl
  rw [h0]
  intro h
  exact absurd (Except.error.inj h) (by decide)

/-- C6 (amended): for every path that is neither empty nor `"/"`, an absent
body, a JSON `null` body, and an empty-object `{}` body are all rejected
with the 400 empty-model error, and no storage call is issued. -/
theorem publish_empty_model_rejected (s : BookstoreSettings)
    (store : PutObjectCall → Except PyErr PutObjectResponse)
    (path : String) (hp : ¬(path = "" ∨ path = "/")) (body : Option Json)
    (hb : body = none ∨ body = some Json.null ∨ body = some (Json.obj [])) :
    BookstorePublishHandler.put s store path body
      = (Except.error (PyErr.httpError 400 "Cannot publish an empty model"), []) := by
  apply put_empty_model s store path body hp
  rcases hb with h | h | h <;> subst h <;> rfl

/-- C6 witness: a `null` body on the path `"nb.ipynb"` is rejected with the
empty-model error and an empty storage trace. -/
theorem publish_empty_model_rejected_witness :
    ¬(("nb.ipynb" : String) = "" ∨ ("nb.ipynb" : String) = "/")
    ∧ BookstorePublishHandler.put sampleSettings storePlain "nb.ipynb" (some Json.null)
      = (Except.error (PyErr.httpError 400 "Cannot publish an empty model"), []) :=
  ⟨by decide, publish_empty_model_rejected sampleSettings storePlain "nb.ipynb" (by decide)
      (some Json.null) (Or.inr (Or.inl rfl))⟩

/-- C10 counterexample: `"/"` is a non-empty path, yet the falsy body `0`
is rejected there with the missing-path message, not the empty-model one
the claim requires for every non-empty path. -/
theorem publish_falsy_body_root_cex :
    (Json.num 0).truthy = false
    ∧ (BookstorePublishHandler.put sampleSettings storePlain "/" (some (Json.num 0))).1
      = Except.error (PyErr.httpError 400 "Must provide a path for publishing")
    ∧ (BookstorePublishHandler.put sampleSettings storePlain "/" (some (Json.num 0))).1
      ≠ Except.error (PyErr.httpError 400 "Cannot publish an empty model") := by
  refine ⟨rfl, rfl, ?_⟩
  have h0 : (BookstorePublishHandler.put sampleSettings storePlain "/" (some (Json.num 0))).1
      = Except.error (PyErr.httpError 400 "Must provide a path for publishing") := rfl
  rw [h0]
  intro h
  exact absurd (Except.error.inj h) (by decide)

/-- C10 (amended): for every path that is neither empty nor `"/"`, any
decoded body that is falsy in Python is rejected exactly like an absent
body, with the 400 empty-model error; in particular `false`, `0`, `""` and
`[]` are all falsy. -/
theorem publish_falsy_body_rejected (s : BookstoreSettings)
    (store : PutObjectCall → Except PyErr PutObjectResponse)
    (path : String) (j : Json)
    (hp : ¬(path = "" ∨ path = "/")) (hf : j.truthy = false) :
    (BookstorePublishHandler.put s store path (some j)).1
      = Except.error (PyErr.httpError 400 "Cannot publish an empty model")
    ∧ BookstorePublishHandler.put s store path (some j)
      = BookstorePublishHandler.put s store path none
    ∧ (Json.bool false).truthy = false ∧ (Json.num 0).truthy = false
    ∧ (Json.str "").truthy = false ∧ (Json.arr []).truthy = false := by
  have h1 := put_empty_model s store path (some j) hp (by simpa [truthyOpt] using hf)
  have h2 := put_empty_model s store path none hp rfl
  rw [h1, h2]
  exact ⟨rfl, rfl, rfl, rfl, rfl, rfl⟩

/-- C10 witness: the falsy body `0` on the path `"nb.ipynb"` is rejected
with the empty-model error, just like an absent body. -/
theorem publish_falsy_body_rejected_witness :
    ¬(("nb.ipynb" : String) = "" ∨ ("nb.ipynb" : String) = "/")
    ∧ (Json.num 0).truthy = false
    ∧ (BookstorePublishHandler.put sampleSettings storePlain "nb.ipynb" (some (Json.num 0))).1
      = Except.error (PyErr.httpError 400 "Cannot publish an empty model")
    ∧ BookstorePublishHandler.put sampleSettings storePlain "nb.ipynb" (some (Json.num 0))
      = BookstorePublishHandler.put sampleSettings storePlain "nb.ipynb" none :=
  ⟨by decide, rfl,
   (publish_falsy_body_rejected sampleSettings storePlain "nb.ipynb" (Json.num 0)
      (by decide) rfl).1,
   (publish_falsy_body_rejected sampleSettings storePlain "nb.ipynb" (Json.num 0)
      (by decide) rfl).2.1⟩

/-- C1 counterexample: a non-empty body that lacks the `type` field is not
rejected with a 400 `HTTPError`; the handler's `model['type']` subscript
raises an uncaught `KeyError` instead. -/
theorem publish_missing_type_cex :
    (BookstorePublishHandler.put sampleSettings storePlain "nb.ipynb"
        (some (Json.obj [("content", Json.obj [])]))).1
      = Except.error (PyErr.keyError "type")
    ∧ ∀ msg : String,
        Except.error (PyErr.keyError "type")
          ≠ (Except.error (PyErr.httpError 400 msg) : Except PyErr HttpResponse) := by
  refine ⟨rfl, fun msg h => ?_⟩
  cases Except.error.inj h

/-- C1 (amended): on an acceptable path with a truthy body, a `type` field
that is present but differs from `"notebook"` is rejected with the 400
"bookstore only publishes notebooks" error; a body on which the `type`
subscript fails (field absent, or body not a dict) propagates that
`KeyError`/`TypeError` uncaught, and likewise for a notebook body whose
`content` subscript fails. -/
theorem publish_bad_shape (s : BookstoreSettings)
    (store : PutObjectCall → Except PyErr PutObjectResponse)
    (path : String) (m : Json)
    (hp : ¬(path = "" ∨ path = "/")) (hm : m.truthy = true) :
    (∀ t, m.getItem "type" = Except.ok t → t.eqStr "notebook" = false →
      (BookstorePublishHandler.put s store path (some m)).1
        = Except.error (PyErr.httpError 400 "bookstore only publishes notebooks"))
    ∧ (∀ e, m.getItem "type" = Except.error e →
      (BookstorePublishHandler.put s store path (some m)).1 = Except.error e)
    ∧ (∀ e, m.getItem "type" = Except.ok (Json.str "notebook") →
      m.getItem "content" = Except.error e →
      (BookstorePublishHandler.put s store path (some m)).1 = Except.error e) := by
  rw [put_truthy_body s store path m hp hm]
  refine ⟨fun t ht hne => ?_, fun e he => ?_, fun e ht hc => ?_⟩
  · rw [publishModel_wrong_type s store m (lstripSlash path) t ht hne]
  · rw [publishModel_type_exn s store m (lstripSlash path) e he]
  · rw [publishModel_content_exn s store m (lstripSlash path) e ht hc]

/-- C1 witness: a body with `type` `"markdown"` is rejected with the 400
wrong-type error; a dict body without `type` yields `KeyError("type")`; a
notebook body without `content` yields `KeyError("content")`. -/
theorem publish_bad_shape_witness :
    ¬(("nb.ipynb" : String) = "" ∨ ("nb.ipynb" : String) = "/")
    ∧ (BookstorePublishHandler.put sampleSettings storePlain "nb.ipynb"
        (some (Json.obj [("type", Json.str "markdown"), ("content", Json.obj [])]))).1
      = Except.error (PyErr.httpError 400 "bookstore only publishes notebooks")
    ∧ (BookstorePublishHandler.put sampleSettings storePlain "nb.ipynb"
        (some (Json.obj [("name", Json.str "x")]))).1
      = Except.error (PyErr.keyError "type")
    ∧ (BookstorePublishHandler.put sampleSettings storePlain "nb.ipynb"
        (some (Json.obj [("type", Json.str "notebook")]))).1
      = Except.error (PyErr.keyError "content") :=
  ⟨by decide,
   (publish_bad_shape sampleSettings storePlain "nb.ipynb"
      (Json.obj [("type", Json.str "markdown"), ("content", Json.obj [])])
      (by decide) rfl).1 (Json.str "markdown") rfl rfl,
   (publish_bad_shape sampleSettings storePlain "nb.ipynb"
      (Json.obj [("name", Json.str "x")])
      (by decide) rfl).2.1 (PyErr.keyError "type") rfl,
   (publish_bad_shape sampleSettings storePlain "nb.ipynb"
      (Json.obj [("type", Json.str "notebook")])
      (by decide) rfl).2.2 (PyErr.keyError "content") rfl rfl⟩

/-- C2: when every validation passes and the storage write succeeds, the
response is exactly status 201 with body the serialized object holding
`s3path` (the full storage path) and, exactly when the storage response
reports a version identifier, `versionID` equal to it; nothing else. -/
theorem publish_success_response (s : BookstoreSettings)
    (store : PutObjectCall → Except PyErr PutObjectResponse)
    (path : String) (m c : Json) (resp : PutObjectResponse)
    (hp : ¬(path = "" ∨ path = "/")) (hm : m.truthy = true)
    (ht : m.getItem "type" = Except.ok (Json.str "notebook"))
    (hc : m.getItem "content" = Except.ok c)
    (hs : store ⟨s.s3_bucket, s3_key s.published_pfx (lstripSlash path), c.dumps⟩
        = Except.ok resp) :
    (BookstorePublishHandler.put s store path (some m)).1
      = Except.ok ⟨201, (Json.obj (match resp.versionId with
          | some v =>
            [("s3path", Json.str (s3_path s.s3_bucket s.published_pfx (lstripSlash path))),
             ("versionID", Json.str v)]
          | none =>
            [("s3path", Json.str (s3_path s.s3_bucket s.published_pfx (lstripSlash path)))])).dumps⟩ := by
  rw [put_truthy_body s store path m hp hm,
      publishModel_store_ok s store m (lstripSlash path) c resp ht hc hs]

/-- C2 witness: publishing the sample notebook to `"foo/bar.ipynb"` against
a backend that reports version id `"v1"` yields 201 and a body with both
`s3path` and `versionID`; against a backend that reports none, 201 and a
body with `s3path` only. -/
theorem publish_success_response_witness :
    ¬(("foo/bar.ipynb" : String) = "" ∨ ("foo/bar.ipynb" : String) = "/")
    ∧ sampleNotebook.truthy = true
    ∧ (BookstorePublishHandler.put sampleSettings storeVersioned "foo/bar.ipynb"
        (some sampleNotebook)).1
      = Except.ok ⟨201, (Json.obj
          [("s3path", Json.str "s3://mybucket/published/foo/bar.ipynb"),
           ("versionID", Json.str "v1")]).dumps⟩
    ∧ (BookstorePublishHandler.put sampleSettings storePlain "foo/bar.ipynb"
        (some sampleNotebook)).1
      = Except.ok ⟨201, (Json.obj
          [("s3path", Json.str "s3://mybucket/published/foo/bar.ipynb")]).dumps⟩ :=
  ⟨by decide, rfl,
   publish_success_response sampleSettings storeVersioned "foo/bar.ipynb"
     sampleNotebook (Json.obj [("cells", Json.arr [])]) ⟨some "v1"⟩
     (by decide) rfl rfl rfl rfl,
   publish_success_response sampleSettings storePlain "foo/bar.ipynb"
     sampleNotebook (Json.obj [("cells", Json.arr [])]) ⟨none⟩
     (by decide) rfl rfl rfl rfl⟩

/-- C3: every request issues at most one `put_object` call; a call is issued
only when every validation passes, and whenever every validation passes —
whatever the write's outcome — the trace is exactly one call whose body is
the JSON serialization of the `content` field and whose key is the computed
storage key; a storage failure propagates unchanged with that single call
as the whole trace (no retry). -/
theorem publish_single_write (s : BookstoreSettings)
    (store : PutObjectCall → Except PyErr PutObjectResponse)
    (path : String) (body : Option Json) :
    (BookstorePublishHandler.put s store path body).2.length ≤ 1
    ∧ ((BookstorePublishHandler.put s store path body).2 ≠ [] →
        ∃ m c, body = some m ∧ ¬(path = "" ∨ path = "/") ∧ m.truthy = true
          ∧ m.getItem "type" = Except.ok (Json.str "notebook")
          ∧ m.getItem "content" = Except.ok c
          ∧ (BookstorePublishHandler.put s store path body).2
            = [⟨s.s3_bucket, s3_key s.published_pfx (lstripSlash path), c.dumps⟩])
    ∧ (∀ m c, body = some m → ¬(path = "" ∨ path = "/") → m.truthy = true
        → m.getItem "type" = Except.ok (Json.str "notebook")
        → m.getItem "content" = Except.ok c
        → (BookstorePublishHandler.put s store path body).2
            = [⟨s.s3_bucket, s3_key s.published_pfx (lstripSlash path), c.dumps⟩])
    ∧ (∀ m c e, body = some m → ¬(path = "" ∨ path = "/") → m.truthy = true
        → m.getItem "type" = Except.ok (Json.str "notebook")
        → m.getItem "content" = Except.ok c
        → store ⟨s.s3_bucket, s3_key s.published_pfx (lstripSlash path), c.dumps⟩
            = Except.error e
        → BookstorePublishHandler.put s store path body
            = (Except.error e,
               [⟨s.s3_bucket, s3_key s.published_pfx (lstripSlash path), c.dumps⟩])) := by
  have hmain : (BookstorePublishHandler.put s store path body).2 = []
      ∨ ∃ m c, body = some m ∧ ¬(path = "" ∨ path = "/") ∧ m.truthy = true
          ∧ m.getItem "type" = Except.ok (Json.str "notebook")
          ∧ m.getItem "content" = Except.ok c
          ∧ (BookstorePublishHandler.put s store path body).2
            = [⟨s.s3_bucket, s3_key s.published_pfx (lstripSlash path), c.dumps⟩] := by
    by_cases hp : path = "" ∨ path = "/"
    · exact Or.inl (by rw [put_path_error s store path body hp])
    · cases body with
      | none => exact Or.inl (by rw [put_empty_model s store path none hp rfl])
      | some m =>
        by_cases hm : m.truthy = true
        · rw [put_truthy_body s store path m hp hm]
          cases hty : m.getItem "type" with
          | error e => exact Or.inl (by rw [publishModel_type_exn s store m _ e hty])
          | ok t =>
            by_cases hne : t.eqStr "notebook" = true
            · have htt : t = Json.str "notebook" := (Json.eqStr_iff t "notebook").mp hne
              subst htt
              cases hc : m.getItem "content" with
              | error e => exact Or.inl (by rw [publishModel_content_exn s store m _ e hty hc])
              | ok c =>
                refine Or.inr ⟨m, c, rfl, hp, hm, hty, hc, ?_⟩
                cases hs : store ⟨s.s3_bucket, s3_key s.published_pfx (lstripSlash path), c.dumps⟩ with
                | error e => rw [publishModel_store_error s store m _ c e hty hc hs]
                | ok resp => rw [publishModel_store_ok s store m _ c resp hty hc hs]
            · exact Or.inl (by
                rw [publishModel_wrong_type s store m _ t hty (Bool.not_eq_true _ ▸ hne)])
        · exact Or.inl (by
            rw [put_empty_model s store path (some m) hp
              (by simpa [truthyOpt] using Bool.not_eq_true _ ▸ hm)])
  refine ⟨?_, fun hne => ?_, fun m c hb hp hm hty hc => ?_,
    fun m c e hb hp hm hty hc hs => ?_⟩
  · rcases hmain with h | ⟨m, c, _, _, _, _, _, h⟩ <;> rw [h] <;> simp
  · rcases hmain with h | h
    · exact absurd h hne
    · exact h
  · subst hb
    rw [put_truthy_body s store path m hp hm]
    cases hs : store ⟨s.s3_bucket, s3_key s.published_pfx (lstripSlash path), c.dumps⟩ with
    | error e => rw [publishModel_store_error s store m (lstripSlash path) c e hty hc hs]
    | ok resp => rw [publishModel_store_ok s store m (lstripSlash path) c resp hty hc hs]
  · subst hb
    rw [put_truthy_body s store path m hp hm,
        publishModel_store_error s store m (lstripSlash path) c e hty hc hs]

/-- C3 witness: a validated publish whose write succeeds issues exactly one
call, whose body is the serialized content; with a backend that fails every
write the same single call is issued and the storage error propagates
unchanged; an invalid request issues none. -/
theorem publish_single_write_witness :
    (BookstorePublishHandler.put sampleSettings storeFailing "foo/bar.ipynb"
        (some sampleNotebook)).2.length ≤ 1
    ∧ (BookstorePublishHandler.put sampleSettings storePlain "foo/bar.ipynb"
        (some sampleNotebook)).2
      = [⟨"mybucket", "published/foo/bar.ipynb", (Json.obj [("cells", Json.arr [])]).dumps⟩]
    ∧ BookstorePublishHandler.put sampleSettings storeFailing "foo/bar.ipynb"
        (some sampleNotebook)
      = (Except.error (PyErr.storageError "connection refused"),
         [⟨"mybucket", "published/foo/bar.ipynb", (Json.obj [("cells", Json.arr [])]).dumps⟩])
    ∧ (BookstorePublishHandler.put sampleSettings storeFailing "" none).2 = [] :=
  ⟨(publish_single_write sampleSettings storeFailing "foo/bar.ipynb" (some sampleNotebook)).1,
   (publish_single_write sampleSettings storePlain "foo/bar.ipynb"
      (some sampleNotebook)).2.2.1 sampleNotebook (Json.obj [("cells", Json.arr [])])
      rfl (by decide) rfl rfl rfl,
   (publish_single_write sampleSettings storeFailing "foo/bar.ipynb"
      (some sampleNotebook)).2.2.2 sampleNotebook (Json.obj [("cells", Json.arr [])])
      (PyErr.storageError "connection refused") rfl (by decide) rfl rfl rfl rfl,
   congrArg Prod.snd (put_path_error sampleSettings storeFailing "" none (Or.inl rfl))⟩

/-- C7: the behaviour of a publish request — in particular the storage key
and full storage path it computes — is unchanged when all leading slashes
are removed from the path beforehand, as long as something remains of the
path after stripping; the modelled key builder is itself invariant under
the stripping the handler performs. -/
theorem publish_lstrip_invariant (s : BookstoreSettings)
    (store : PutObjectCall → Except PyErr PutObjectResponse)
    (path : String) (body : Option Json)
    (hlp : ¬(lstripSlash path = "" ∨ lstripSlash path = "/")) :
    BookstorePublishHandler.put s store path body
      = BookstorePublishHandler.put s store (lstripSlash path) body
    ∧ s3_key s.published_pfx path = s3_key s.published_pfx (lstripSlash path)
    ∧ s3_path s.s3_bucket s.published_pfx path
      = s3_path s.s3_bucket s.published_pfx (lstripSlash path) := by
  have hp : ¬(path = "" ∨ path = "/") := fun h => hlp (by
    rw [lstripSlash_empty_of_arg_empty path h]
    exact Or.inl rfl)
  refine ⟨?_, ?_, ?_⟩
  · cases body with
    | none =>
      rw [put_empty_model s store path none hp rfl,
          put_empty_model s store (lstripSlash path) none hlp rfl]
    | some m =>
      by_cases hm : m.truthy = true
      · rw [put_truthy_body s store path m hp hm,
            put_truthy_body s store (lstripSlash path) m hlp hm, lstripSlash_idem]
      · have hf : truthyOpt (some m) = false := by
          simpa [truthyOpt] using Bool.not_eq_true _ ▸ hm
        rw [put_empty_model s store path (some m) hp hf,
            put_empty_model s store (lstripSlash path) (some m) hlp hf]
  · simp [s3_key, stripSlash_lstripSlash]
  · simp [s3_path, s3_key, stripSlash_lstripSlash]

/-- C7 witness: publishing the sample notebook to `"/foo/bar.ipynb"` and to
`"foo/bar.ipynb"` behaves identically, and both address the same key and
full storage path. -/
theorem publish_lstrip_invariant_witness :
    ¬(lstripSlash "/foo/bar.ipynb" = "" ∨ lstripSlash "/foo/bar.ipynb" = "/")
    ∧ BookstorePublishHandler.put sampleSettings storePlain "/foo/bar.ipynb"
        (some sampleNotebook)
      = BookstorePublishHandler.put sampleSettings storePlain "foo/bar.ipynb"
        (some sampleNotebook)
    ∧ s3_key sampleSettings.published_pfx "/foo/bar.ipynb"
      = s3_key sampleSettings.published_pfx "foo/bar.ipynb" :=
  ⟨by decide,
   (publish_lstrip_invariant sampleSettings storePlain "/foo/bar.ipynb"
      (some sampleNotebook) (by decide)).1,
   (publish_lstrip_invariant sampleSettings storePlain "/foo/bar.ipynb"
      (some sampleNotebook) (by decide)).2.1⟩

theorem boolOrAbsent_cases (o : Option Json) (h : boolOrAbsent o = true) :
    o = none ∨ ∃ b, o = some (Json.bool b) := by
  match o with
  | none => exact Or.inl rfl
  | some (Json.bool b) => exact Or.inr ⟨b, rfl⟩
  | some Json.null | some (Json.num _) | some (Json.str _)
  | some (Json.arr _) | some (Json.obj _) => simp [boolOrAbsent] at h

/-- C8: the version route is registered for every validation report, while
with boolean-or-absent flags the publish route is registered exactly when
both `bookstore_valid` and `publish_valid` are `true`; a false or missing
flag leaves it unmounted. -/
theorem load_extension_routes (validation : List (String × Json))
    (h1 : boolOrAbsent (validation.lookup "bookstore_valid") = true)
    (h2 : boolOrAbsent (validation.lookup "publish_valid") = true) :
    (∀ v : List (String × Json), Route.versionRoute ∈ load_jupyter_server_extension v)
    ∧ (Route.publishRoute ∈ load_jupyter_server_extension validation
        ↔ validation.lookup "bookstore_valid" = some (Json.bool true)
          ∧ validation.lookup "publish_valid" = some (Json.bool true)) := by
  constructor
  · intro v
    by_cases h : ([v.lookup "bookstore_valid", v.lookup "publish_valid"].all truthyOpt) = true
    · simp [load_jupyter_server_extension, h]
    · simp [load_jupyter_server_extension, h]
  · rcases boolOrAbsent_cases _ h1 with ha | ⟨b1, ha⟩ <;>
      rcases boolOrAbsent_cases _ h2 with hc | ⟨b2, hc⟩
    · simp [load_jupyter_server_extension, ha, hc, truthyOpt]
    · simp [load_jupyter_server_extension, ha, hc, truthyOpt]
    · simp [load_jupyter_server_extension, ha, hc, truthyOpt]
    · cases b1 <;> cases b2 <;>
        simp [load_jupyter_server_extension, ha, hc, truthyOpt, Json.truthy]

/-- C8 witness: with both flags true both routes are registered; with
`publish_valid` false, and with it absent, only the version route is. -/
theorem load_extension_routes_witness :
    boolOrAbsent ([("bookstore_valid", Json.bool true),
        ("publish_valid", Json.bool true)].lookup "bookstore_valid") = true
    ∧ Route.versionRoute ∈ load_jupyter_server_extension
        [("bookstore_valid", Json.bool true), ("publish_valid", Json.bool true)]
    ∧ Route.publishRoute ∈ load_jupyter_server_extension
        [("bookstore_valid", Json.bool true), ("publish_valid", Json.bool true)]
    ∧ Route.publishRoute ∉ load_jupyter_server_extension
        [("bookstore_valid", Json.bool true), ("publish_valid", Json.bool false)]
    ∧ Route.publishRoute ∉ load_jupyter_server_extension
        [("bookstore_valid", Json.bool true)] :=
  by
  refine ⟨rfl, ?_, ?_, ?_, ?_⟩
  · exact (load_extension_routes [("bookstore_valid", Json.bool true),
      ("publish_valid", Json.bool true)] rfl rfl).1 _
  · exact (load_extension_routes [("bookstore_valid", Json.bool true),
      ("publish_valid", Json.bool true)] rfl rfl).2.mpr ⟨rfl, rfl⟩
  · intro hmem
    have h := ((load_extension_routes [("bookstore_valid", Json.bool true),
      ("publish_valid", Json.bool false)] rfl rfl).2.mp hmem).2
    rw [show ([("bookstore_valid", Json.bool true),
      ("publish_valid", Json.bool false)].lookup "publish_valid")
        = some (Json.bool false) from rfl] at h
    exact Bool.noConfusion (Json.bool.inj (Option.some.inj h))
  · intro hmem
    have h := ((load_extension_routes [("bookstore_valid", Json.bool true)]
      rfl rfl).2.mp hmem).2
    rw [show ([("bookstore_valid", Json.bool true)].lookup "publish_valid")
        = (none : Option Json) from rfl] at h
    exact Option.noConfusion h

/-- C9: the version endpoint is a pure read — with the settings entries
present it returns 200 and exactly the serialized
`{"bookstore": true, "version": ..., "validation": ...}` document with the
validation report passed through unchanged, and any two evaluations on the
same settings agree byte for byte. -/
theorem version_deterministic (webSettings bs v rep : Json)
    (hb : webSettings.getItem "bookstore" = Except.ok bs)
    (hv : bs.getItem "version" = Except.ok v)
    (hr : bs.getItem "validation" = Except.ok rep) :
    BookstoreVersionHandler.get webSettings
      = Except.ok ⟨200, (Json.obj [("bookstore", Json.bool true), ("version", v),
          ("validation", rep)]).dumps⟩
    ∧ ∀ r₁ r₂, BookstoreVersionHandler.get webSettings = r₁
        → BookstoreVersionHandler.get webSettings = r₂ → r₁ = r₂ := by
  refine ⟨?_, fun r₁ r₂ e₁ e₂ => e₁.symm.trans e₂⟩
  simp only [BookstoreVersionHandler.get, hb, exceptBind_ok, hv, hr]
  rfl

/-- C9 witness: on the sample web settings the version endpoint yields 200
with the serialized document carrying the sample report unchanged, and two
evaluations agree. -/
theorem version_deterministic_witness :
    sampleWebSettings.getItem "bookstore"
      = Except.ok (Json.obj [("version", Json.str "2.5.1"), ("validation", sampleReport)])
    ∧ BookstoreVersionHandler.get sampleWebSettings
      = Except.ok ⟨200, (Json.obj [("bookstore", Json.bool true),
          ("version", Json.str "2.5.1"), ("validation", sampleReport)]).dumps⟩ :=
  ⟨rfl,
   (version_deterministic sampleWebSettings
      (Json.obj [("version", Json.str "2.5.1"), ("validation", sampleReport)])
      (Json.str "2.5.1") sampleReport rfl rfl rfl).1⟩
